import Mathlib

/-!
Verification of the `ext_build.py` CMake extension build orchestrator.

The Python source is shallowly embedded below: the filesystem, the command
exit codes and the subprocess output streams are supplied by an `Env` record
of oracles; printing and subprocess launches are recorded in a `World` trace.
Python dicts are insertion-ordered association lists; object identity of
dicts (needed for the constructor's mutable default argument) is modelled by
a small heap of dicts indexed by natural numbers.
-/

namespace ExtBuild

/-- A Python `dict[str, str]`: insertion-ordered association list. -/
abbrev PyDict := List (String × String)

/-- Membership test `k in d` for a Python dict. -/
def dictContains (d : PyDict) (k : String) : Bool :=
  d.any (fun kv => kv.1 == k)

/-- Assignment `d[k] = v` for a Python dict: update in place if present, else append
(new keys go to the end of the iteration order). -/
def dictSet (d : PyDict) (k v : String) : PyDict :=
  if dictContains d k then
    d.map (fun kv => if kv.1 == k then (k, v) else kv)
  else
    d ++ [(k, v)]

/-- Lookup `d.get(k)` for a Python dict. -/
def dictLookup (d : PyDict) (k : String) : Option String :=
  (d.find? (fun kv => kv.1 == k)).map (fun kv => kv.2)

/-- Python `s.startswith(pre)`, computed on the character lists. -/
def pyStartsWith (s pre : String) : Bool :=
  pre.data.isPrefixOf s.data

/-- Python `s.endswith(suf)`, computed on the character lists. -/
def pyEndsWith (s suf : String) : Bool :=
  suf.data.isSuffixOf s.data

/-- Python `os.path.join` for the paths this program uses (absolute second
component wins; otherwise concatenate with a single separator). -/
def pathJoin (a b : String) : String :=
  if pyStartsWith b "/" then b
  else if pyEndsWith a "/" then a ++ b
  else a ++ "/" ++ b

/-- Python `os.path.abspath` relative to a current working directory. -/
def abspath (cwd p : String) : String :=
  if pyStartsWith p "/" then p else pathJoin cwd p

/-- The ambient host: platform identification, tool locations, and oracles
for the filesystem and for subprocess behaviour (exit code, stdout and
stderr line streams of each command). -/
structure Env where
  osName : String
  cmakeBinDir : String
  pybind11Dir : String
  projectRoot : String
  cwd : String
  fsExists : String → Bool
  readFile : String → String
  exitCode : List String → Int
  stdoutOf : List String → List String
  stderrOf : List String → List String

/-- Module-level `CMAKE_BIN`: `osp.join(cmake.CMAKE_BIN_DIR, "cmake")`,
with an `.exe` suffix on Windows (`os.name == "nt"`). -/
def cmakeBin (env : Env) : String :=
  pathJoin env.cmakeBinDir (if env.osName == "nt" then "cmake.exe" else "cmake")

/-- Module-level `_CMAKE_DEFAULT_DEF`. -/
def CMAKE_DEFAULT_DEF (pybind11Dir : String) : PyDict :=
  [("CMAKE_EXPORT_COMPILE_COMMANDS", "ON"), ("pybind11_DIR", pybind11Dir)]

/-- Heap of Python dict objects, so that dict references (aliasing) can be
expressed. A `Nat` index is a dict reference. -/
structure PyState where
  heap : List PyDict
deriving Repr

/-- Dereference a dict. -/
def heapGet (st : PyState) (r : Nat) : PyDict :=
  st.heap.getD r []

/-- Overwrite a dict object in place. -/
def heapSet (st : PyState) (r : Nat) (d : PyDict) : PyState :=
  ⟨st.heap.set r d⟩

/-- Allocate a fresh dict object, returning its reference. -/
def allocDict (st : PyState) (d : PyDict) : PyState × Nat :=
  (⟨st.heap ++ [d]⟩, st.heap.length)

/-- Module load time: the constructor's default argument `{}` is evaluated
once, producing a single dict object shared by every call that omits
`cmake_extr_def`. -/
def initModuleState : PyState := ⟨[[]]⟩

/-- Reference to the constructor's default-argument dict. -/
def defaultArgRef : Nat := 0

/-- The fields of a `CmakeExtension` instance; `cmake_extra_def` is a
reference into the dict heap (`self.cmake_extra_def = cmake_extr_def`
stores the caller's object, not a copy). -/
structure CmakeExtension where
  module_name : String
  cmake_src_dir : String
  cmake_bin_dir : String
  cmake_extra_def : Nat
  dry_run : Bool
  cmd_in_shell : Bool
  rm_cmd : String
deriving Repr

/-- Embeds `CmakeExtension.__init__`: resolves directories, merges the default
definitions into the dict object passed as (or defaulted into)
`cmake_extr_def` — mutating that object — and selects platform behaviour. -/
def cmakeExtensionInit (env : Env) (st : PyState) (module_name : String)
    (cmake_src_dir : String) (cmake_bin_dir : Option String)
    (cmake_extr_def : Nat) (dry_run : Bool) : PyState × CmakeExtension :=
  let src := abspath env.cwd cmake_src_dir
  let bin :=
    match cmake_bin_dir with
    | none => pathJoin src "cmake-build-release"
    | some b => abspath env.cwd b
  let d0 := heapGet st cmake_extr_def
  let d1 := (CMAKE_DEFAULT_DEF env.pybind11Dir).foldl
    (fun d kv => if dictContains d kv.1 then d else dictSet d kv.1 kv.2) d0
  let st1 := heapSet st cmake_extr_def d1
  (st1,
    { module_name := module_name
      cmake_src_dir := src
      cmake_bin_dir := bin
      cmake_extra_def := cmake_extr_def
      dry_run := dry_run
      cmd_in_shell := env.osName == "nt"
      rm_cmd := if env.osName == "nt" then "del" else "rm" })

/-- A `CmakeExtension` instance with its configuration dict dereferenced:
the view the phase methods read (none of them mutates the dict). -/
structure Ext where
  module_name : String
  cmake_src_dir : String
  cmake_bin_dir : String
  cmake_extra_def : PyDict
  dry_run : Bool
  cmd_in_shell : Bool
  rm_cmd : String
deriving Repr

/-- Dereference an instance's dict for use by the phase methods. -/
def toExt (st : PyState) (i : CmakeExtension) : Ext :=
  { module_name := i.module_name
    cmake_src_dir := i.cmake_src_dir
    cmake_bin_dir := i.cmake_bin_dir
    cmake_extra_def := heapGet st i.cmake_extra_def
    dry_run := i.dry_run
    cmd_in_shell := i.cmd_in_shell
    rm_cmd := i.rm_cmd }

/-- The exceptions the program can raise: `SubCommandError` from a failing
subprocess, or the `assert len(cmd) > 0` failing in `_run_cmd`. -/
inductive Err where
  | subCommand
  | assertFail
deriving Repr, DecidableEq

/-- Observable effect trace: lines printed to stdout, and subprocesses
launched (command vector paired with the `shell=` flag). The program itself
touches the filesystem only through subprocesses, so an empty `spawned`
delta also means zero filesystem mutations by the run. -/
structure World where
  prints : List String
  spawned : List (List String × Bool)
deriving Repr, DecidableEq

/-- A Python whitespace character, as stripped by `str.strip()`. -/
def pyWsChar (c : Char) : Bool :=
  c == ' ' || c == '\t' || c == '\n' || c == '\r' || c == '\x0b' || c == '\x0c'

/-- Python `line_bytes.decode().strip()`: drop leading and trailing whitespace. -/
def pystrip (s : String) : String :=
  ((s.data.dropWhile pyWsChar).reverse.dropWhile pyWsChar).reverse.asString

/-- The pre-execution line `_run_single_cmd` always prints: blue phase
header, tab, green full command line. -/
def cmdHeaderLine (term_header : String) (cmd : List String) : String :=
  "\u001B[34m" ++ term_header ++ "\u001B[0m\t\u001B[32m" ++
    String.intercalate " " cmd ++ "\u001B[0m"

/-- A streamed stdout line, tagged with the phase header. -/
def stdoutTagged (term_header line : String) : String :=
  "\u001B[34m" ++ term_header ++ "\t\u001B[0m" ++ pystrip line

/-- A streamed stderr line, tagged with the phase header (red). -/
def stderrTagged (term_header line : String) : String :=
  "\u001B[31m" ++ term_header ++ "\t\u001B[0m" ++ pystrip line

/-- The line `clean` prints when it computes no cleanup commands. -/
def nothingToCleanLine : String := "\u001B[34mNothing to clean.\t\u001B[0m"

/-- Embeds `CmakeExtension._run_single_cmd`: print the header line; in dry-run
return success immediately; otherwise launch the process, drain all of
stdout, then all of stderr, wait, and raise `SubCommandError` on a
non-zero exit code. -/
def run_single_cmd (env : Env) (e : Ext) (w : World) (cmd : List String)
    (term_header : String) : World × Except Err Unit :=
  let w1 : World := ⟨w.prints ++ [cmdHeaderLine term_header cmd], w.spawned⟩
  if e.dry_run then (w1, Except.ok ())
  else
    let w2 : World := ⟨w1.prints, w1.spawned ++ [(cmd, e.cmd_in_shell)]⟩
    let w3 : World :=
      ⟨w2.prints ++ (env.stdoutOf cmd).map (stdoutTagged term_header), w2.spawned⟩
    let w4 : World :=
      ⟨w3.prints ++ (env.stderrOf cmd).map (stderrTagged term_header), w3.spawned⟩
    if env.exitCode cmd ≠ 0 then (w4, Except.error Err.subCommand)
    else (w4, Except.ok ())

/-- The batch arm of `_run_cmd`: run each command in order; a raised
exception aborts the remaining commands. -/
def run_batch (env : Env) (e : Ext) (w : World) (cmds : List (List String))
    (term_header : String) : World × Except Err Unit :=
  match cmds with
  | [] => (w, Except.ok ())
  | c :: rest =>
    match run_single_cmd env e w c term_header with
    | (w1, Except.ok _) => run_batch env e w1 rest term_header
    | (w1, Except.error err) => (w1, Except.error err)

/-- Embeds `CmakeExtension._run_cmd`: the `assert len(cmd) > 0`, then dispatch on
whether `cmd` is a single command (`list[str]`) or a batch
(`list[list[str]]`). -/
def runCmd (env : Env) (e : Ext) (w : World)
    (cmd : List String ⊕ List (List String)) (term_header : String) :
    World × Except Err Unit :=
  match cmd with
  | Sum.inl single =>
    if single.isEmpty then (w, Except.error Err.assertFail)
    else run_single_cmd env e w single term_header
  | Sum.inr batch =>
    if batch.isEmpty then (w, Except.error Err.assertFail)
    else run_batch env e w batch term_header

/-- Embeds `CmakeExtension._get_configure_cmd`: base invocation, then the Ninja
generator flags on non-Windows, then one `-D<k>=<v>` per extra definition
in dict iteration order. -/
def get_configure_cmd (env : Env) (e : Ext) : List String :=
  let cmd := [cmakeBin env, "-S", e.cmake_src_dir, "-B", e.cmake_bin_dir,
    "-DCMAKE_BUILD_TYPE=Release"]
  let cmd := if env.osName != "nt" then cmd ++ ["-G", "Ninja"] else cmd
  e.cmake_extra_def.foldl (fun c kv => c ++ ["-D" ++ kv.1 ++ "=" ++ kv.2]) cmd

/-- Embeds `CmakeExtension._get_build_cmd`. -/
def get_build_cmd (env : Env) (e : Ext) : List String :=
  [cmakeBin env, "--build", e.cmake_bin_dir, "--config", "release"]

/-- Embeds `CmakeExtension._get_post_build_cmd`. -/
def get_post_build_cmd (env : Env) (e : Ext) : List String :=
  [cmakeBin env, "--install", e.cmake_bin_dir]

/-- Python `f.readlines()`: split into lines, each keeping its trailing newline
(the final line keeps none if the file does not end with one). -/
def pyReadlinesAux : List Char → List Char → List String
  | [], acc => if acc.isEmpty then [] else [acc.reverse.asString]
  | c :: rest, acc =>
    if c == '\n' then (c :: acc).reverse.asString :: pyReadlinesAux rest []
    else pyReadlinesAux rest (c :: acc)

/-- Python `f.readlines()` applied to a file's content. -/
def pyReadlines (s : String) : List String := pyReadlinesAux s.data []

/-- Python `s.split(".", 1)[0]`: everything before the first `'.'` (the whole
string if it has none). -/
def splitFirstDotPrefix (s : String) : String :=
  (s.data.takeWhile (fun c => c ≠ '.')).asString

/-- One iteration of the manifest loop in `_get_clean_cmd`: the line is the
installed artifact path, its `.pyi` sibling is derived by replacing
everything from the first `'.'` on, and each of the two gets a removal
command exactly when it exists. -/
def clean_manifest_step (env : Env) (e : Ext) (c : List (List String))
    (line : String) : List (List String) :=
  let lib_path := line
  let pyi_path := splitFirstDotPrefix lib_path ++ ".pyi"
  let c := if env.fsExists lib_path then c ++ [[e.rm_cmd, lib_path]] else c
  if env.fsExists pyi_path then c ++ [[e.rm_cmd, pyi_path]] else c

/-- Embeds `CmakeExtension._get_clean_cmd`: always starts from the
`cmake --build <bin> --target clean` invocation; if the install manifest
exists, appends an `rm`/`del` invocation for each listed path and for its
derived `.pyi` sibling, each only when that path exists. -/
def get_clean_cmd (env : Env) (e : Ext) : List (List String) :=
  let cmd : List (List String) :=
    [[cmakeBin env, "--build", e.cmake_bin_dir, "--target", "clean"]]
  let manifest_path := pathJoin e.cmake_bin_dir "install_manifest.txt"
  if !(env.fsExists manifest_path) then cmd
  else
    (pyReadlines (env.readFile manifest_path)).foldl (clean_manifest_step env e) cmd

/-- Embeds `CmakeExtension._get_stub_gen_cmd`. -/
def get_stub_gen_cmd (env : Env) (e : Ext) : List String :=
  ["stubgen", "--module", e.module_name, "--output", env.projectRoot,
    "--include-docstrings"]

/-- The instance dict `self._cmd_term_headers`. -/
def cmd_term_headers : PyDict :=
  [("configure", "[CMAKE]"), ("build", "[BUILD]"), ("clean", "[CLEAN]"),
    ("stubgen", "[STUB]")]

/-- Lookup `self._cmd_term_headers[phase]`. -/
def headerFor (phase : String) : String :=
  (dictLookup cmd_term_headers phase).getD ""

/-- Embeds `CmakeExtension.configure`. The instance is threaded through so frame
properties are expressible; the body performs no assignment to `self`. -/
def configure (env : Env) (e : Ext) (w : World) :
    Ext × World × Except Err Unit :=
  let cmd := get_configure_cmd env e
  let r := runCmd env e w (Sum.inl cmd) (headerFor "configure")
  (e, r.1, r.2)

/-- Embeds `CmakeExtension.build`: run the build command; if it succeeds and the
post-build command list is non-empty, run it under the same header. -/
def build (env : Env) (e : Ext) (w : World) :
    Ext × World × Except Err Unit :=
  let cmd := get_build_cmd env e
  match runCmd env e w (Sum.inl cmd) (headerFor "build") with
  | (w1, Except.error err) => (e, w1, Except.error err)
  | (w1, Except.ok _) =>
    let post_build_cmd := get_post_build_cmd env e
    if post_build_cmd.length > 0 then
      let r := runCmd env e w1 (Sum.inl post_build_cmd) (headerFor "build")
      (e, r.1, r.2)
    else (e, w1, Except.ok ())

/-- Embeds `CmakeExtension.clean`: compute the cleanup batch; print
"Nothing to clean." and return if it is empty, else run it. -/
def clean (env : Env) (e : Ext) (w : World) :
    Ext × World × Except Err Unit :=
  let cmd := get_clean_cmd env e
  if cmd.length == 0 then
    (e, ⟨w.prints ++ [nothingToCleanLine], w.spawned⟩, Except.ok ())
  else
    let r := runCmd env e w (Sum.inr cmd) (headerFor "clean")
    (e, r.1, r.2)

/-- Embeds `CmakeExtension.stubgen`. -/
def stubgen (env : Env) (e : Ext) (w : World) :
    Ext × World × Except Err Unit :=
  let cmd := get_stub_gen_cmd env e
  let r := runCmd env e w (Sum.inl cmd) (headerFor "stubgen")
  (e, r.1, r.2)

/-- Parsed CLI flags. -/
structure Args where
  clean : Bool
  dry_run : Bool
deriving Repr

/-- The construction `main` performs: a fresh module state (one process),
the hard-coded module/source configuration, and the default-argument dict. -/
def mainExtInit (env : Env) (dry_run : Bool) : PyState × CmakeExtension :=
  cmakeExtensionInit env initModuleState "python_template._ext"
    (pathJoin env.projectRoot "csrcs") none defaultArgRef dry_run

/-- The dereferenced instance `main` drives. -/
def mainExt (env : Env) (dry_run : Bool) : Ext :=
  let (st, i) := mainExtInit env dry_run
  toExt st i

/-- The body of `main`'s `try` block over the singleton extension list:
either `clean` alone, or `configure; build; stubgen` with exception
propagation aborting the remaining phases. Returns the world together with
the outcome the `except` clause will see. -/
def mainTryBody (env : Env) (args : Args) : World × Except Err Unit :=
  let e := mainExt env args.dry_run
  let w0 : World := ⟨[], []⟩
  if args.clean then
    let r := clean env e w0
    (r.2.1, r.2.2)
  else
    match configure env e w0 with
    | (_, w1, Except.error err) => (w1, Except.error err)
    | (_, w1, Except.ok _) =>
      match build env e w1 with
      | (_, w2, Except.error err) => (w2, Except.error err)
      | (_, w2, Except.ok _) =>
        let r := stubgen env e w2
        (r.2.1, r.2.2)

/-- The process exit code of one CLI run: `main` catches `SubCommandError`
with `pass`, so the interpreter exits 0 unless some other exception (only
the `assert` in `_run_cmd`) escapes. -/
def mainExitCode (env : Env) (args : Args) : Nat :=
  match (mainTryBody env args).2 with
  | Except.ok _ => 0
  | Except.error Err.subCommand => 0
  | Except.error Err.assertFail => 1

/-- A concrete POSIX host with an empty filesystem, used to instantiate the
universally quantified theorems below. -/
def envLinux : Env :=
  { osName := "posix"
    cmakeBinDir := "/opt/cmake/bin"
    pybind11Dir := "/site/pybind11"
    projectRoot := "/proj"
    cwd := "/proj"
    fsExists := fun _ => false
    readFile := fun _ => ""
    exitCode := fun _ => 0
    stdoutOf := fun _ => []
    stderrOf := fun _ => [] }

/-- The extension instance `main` constructs on `envLinux`, dry-run off. -/
def ext0 : Ext := mainExt envLinux false

/-- Variant of `envLinux` with an install manifest listing one installed library whose
`.so` exists but whose `.pyi` sibling does not. -/
def envManifest : Env :=
  { envLinux with
    fsExists := fun p =>
      p == "/proj/csrcs/cmake-build-release/install_manifest.txt" ||
        p == "/out/mylib.cpython-310.so"
    readFile := fun _ => "/out/mylib.cpython-310.so" }

/-- Variant of `envLinux` where every external command exits with code 1. -/
def envFail : Env := { envLinux with exitCode := fun _ => 1 }

/-- Variant of `envLinux` where every command emits one stdout line and two stderr
lines. -/
def envStreams : Env :=
  { envLinux with
    stdoutOf := fun _ => [" hello \n"]
    stderrOf := fun _ => ["oops\n", "bad\n"] }

/-- First constructor call of a pair sharing the default-argument dict. -/
def sharedInit1 : PyState × CmakeExtension :=
  cmakeExtensionInit envLinux initModuleState "a" "/s1" none defaultArgRef false

/-- Second constructor call, made after the first, again omitting
`cmake_extr_def` and hence reusing the same default dict object. -/
def sharedInit2 : PyState × CmakeExtension :=
  cmakeExtensionInit envLinux sharedInit1.1 "b" "/s2" none defaultArgRef false

/-- An extension instance with dry-run enabled (as `--dry-run` builds). -/
def extDry : Ext := mainExt envLinux true

/-! ### Dict lemmas -/

theorem dictLookup_none_of_not_contains (d : PyDict) (k : String)
    (h : dictContains d k = false) : dictLookup d k = none := by
  induction d with
  | nil => rfl
  | cons a l ih =>
    simp only [dictContains, List.any_cons, Bool.or_eq_false_iff] at h
    simp only [dictLookup, List.find?, h.1, Option.map]
    exact ih (by simp [dictContains, h.2])

theorem dictLookup_append (d1 d2 : PyDict) (k : String) :
    dictLookup (d1 ++ d2) k =
      if dictContains d1 k then dictLookup d1 k else dictLookup d2 k := by
  induction d1 with
  | nil => simp [dictLookup, dictContains]
  | cons a l ih =>
    by_cases h : a.1 == k
    · simp [dictLookup, dictContains, List.find?, h]
    · simp only [Bool.not_eq_true] at h
      simp only [List.cons_append, dictLookup, List.find?, h, dictContains,
        List.any_cons, Bool.false_or] at ih ⊢
      exact ih

theorem dictContains_append (d1 d2 : PyDict) (k : String) :
    dictContains (d1 ++ d2) k = (dictContains d1 k || dictContains d2 k) := by
  simp [dictContains, List.any_append]

theorem dictSet_of_not_contains (d : PyDict) (k v : String)
    (h : dictContains d k = false) : dictSet d k v = d ++ [(k, v)] := by
  simp [dictSet, h]

/-- The default-merge loop of `__init__`: looking up a key of the original
dict is unchanged, and looking up a key absent from the original dict gives
exactly what the defaults dict gives. -/
theorem mergeDefaults_lookup (D : PyDict) : ∀ (M : PyDict) (k : String),
    (dictContains M k = true →
      dictLookup
        (D.foldl (fun d kv => if dictContains d kv.1 then d else dictSet d kv.1 kv.2) M)
        k = dictLookup M k) ∧
    (dictContains M k = false →
      dictLookup
        (D.foldl (fun d kv => if dictContains d kv.1 then d else dictSet d kv.1 kv.2) M)
        k = dictLookup D k) := by
  induction D with
  | nil =>
    intro M k
    refine ⟨fun _ => rfl, fun h => ?_⟩
    rw [List.foldl_nil, dictLookup_none_of_not_contains M k h]
    rfl
  | cons kv D ih =>
    intro M k
    rw [List.foldl_cons]
    by_cases hM1 : dictContains M kv.1 = true
    · -- the default key is already in M: the step leaves M unchanged
      rw [if_pos hM1]
      refine ⟨fun h => (ih M k).1 h, fun h => ?_⟩
      have hk : (kv.1 == k) = false := by
        cases hkk : kv.1 == k
        · rfl
        · exfalso
          rw [eq_of_beq hkk] at hM1
          rw [hM1] at h
          exact absurd h (by simp)
      rw [(ih M k).2 h]
      simp [dictLookup, List.find?, hk]
    · -- the default key is new: the step appends it
      rw [if_neg hM1, dictSet_of_not_contains M kv.1 kv.2 (by simpa using hM1)]
      by_cases hk : (kv.1 == k) = true
      · -- the looked-up key is this default key
        have hkeq : kv.1 = k := eq_of_beq hk
        have hMk : dictContains M k = false := by
          rw [← hkeq]; simpa using hM1
        have hC : dictContains (M ++ [(kv.1, kv.2)]) k = true := by
          rw [dictContains_append, hMk]
          simp [dictContains, hk]
        refine ⟨fun h => absurd h (by simp [hMk]), fun _ => ?_⟩
        rw [(ih (M ++ [(kv.1, kv.2)]) k).1 hC, dictLookup_append]
        rw [hMk]
        simp [dictLookup, List.find?, hk]
      · -- different key: the appended pair is invisible to this lookup
        have hk' : (kv.1 == k) = false := by simpa using hk
        constructor
        · intro h
          have hC : dictContains (M ++ [(kv.1, kv.2)]) k = true := by
            rw [dictContains_append, h]; rfl
          rw [(ih (M ++ [(kv.1, kv.2)]) k).1 hC, dictLookup_append, h]
          simp
        · intro h
          have hC : dictContains (M ++ [(kv.1, kv.2)]) k = false := by
            rw [dictContains_append, h]
            simp [dictContains, hk']
          rw [(ih (M ++ [(kv.1, kv.2)]) k).2 hC]
          simp [dictLookup, List.find?, hk']

/-! ### Runner lemmas -/

theorem run_single_cmd_dry (env : Env) (e : Ext) (w : World)
    (cmd : List String) (hdr : String) (h : e.dry_run = true) :
    run_single_cmd env e w cmd hdr =
      (⟨w.prints ++ [cmdHeaderLine hdr cmd], w.spawned⟩, Except.ok ()) := by
  simp [run_single_cmd, h]

theorem run_single_cmd_wet (env : Env) (e : Ext) (w : World)
    (cmd : List String) (hdr : String) (h : e.dry_run = false) :
    run_single_cmd env e w cmd hdr =
      (⟨w.prints ++ [cmdHeaderLine hdr cmd]
          ++ (env.stdoutOf cmd).map (stdoutTagged hdr)
          ++ (env.stderrOf cmd).map (stderrTagged hdr),
        w.spawned ++ [(cmd, e.cmd_in_shell)]⟩,
        if env.exitCode cmd ≠ 0 then Except.error Err.subCommand
        else Except.ok ()) := by
  simp only [run_single_cmd, h, Bool.false_eq_true, if_false, ne_eq]
  split <;> rfl

theorem run_single_cmd_spawned (env : Env) (e : Ext) (w : World)
    (cmd : List String) (hdr : String) :
    (run_single_cmd env e w cmd hdr).1.spawned =
      w.spawned ++ (if e.dry_run then [] else [(cmd, e.cmd_in_shell)]) := by
  cases h : e.dry_run
  · rw [run_single_cmd_wet env e w cmd hdr h]
    split <;> simp
  · rw [run_single_cmd_dry env e w cmd hdr h]
    simp

theorem run_single_cmd_result (env : Env) (e : Ext) (w : World)
    (cmd : List String) (hdr : String) :
    (run_single_cmd env e w cmd hdr).2 = Except.ok () ∨
      (run_single_cmd env e w cmd hdr).2 = Except.error Err.subCommand := by
  cases h : e.dry_run
  · rw [run_single_cmd_wet env e w cmd hdr h]
    split
    · exact Or.inr rfl
    · exact Or.inl rfl
  · rw [run_single_cmd_dry env e w cmd hdr h]
    exact Or.inl rfl

theorem run_batch_spawned_extends (env : Env) (e : Ext) (hdr : String) :
    ∀ (cmds : List (List String)) (w : World),
      ∃ δ, (run_batch env e w cmds hdr).1.spawned = w.spawned ++ δ := by
  intro cmds
  induction cmds with
  | nil => intro w; exact ⟨[], by simp [run_batch]⟩
  | cons c rest ih =>
    intro w
    rcases hr : run_single_cmd env e w c hdr with ⟨w1, r⟩
    have hs : w1.spawned = w.spawned ++ (if e.dry_run then [] else [(c, e.cmd_in_shell)]) := by
      have := run_single_cmd_spawned env e w c hdr
      rw [hr] at this
      exact this
    cases r with
    | ok u =>
      obtain ⟨δ2, h2⟩ := ih w1
      refine ⟨(if e.dry_run then [] else [(c, e.cmd_in_shell)]) ++ δ2, ?_⟩
      simp only [run_batch, hr, h2, hs, List.append_assoc]
    | error err =>
      refine ⟨if e.dry_run then [] else [(c, e.cmd_in_shell)], ?_⟩
      simp only [run_batch, hr, hs]

theorem run_batch_result (env : Env) (e : Ext) (hdr : String) :
    ∀ (cmds : List (List String)) (w : World),
      (run_batch env e w cmds hdr).2 = Except.ok () ∨
        (run_batch env e w cmds hdr).2 = Except.error Err.subCommand := by
  intro cmds
  induction cmds with
  | nil => intro w; exact Or.inl rfl
  | cons c rest ih =>
    intro w
    rcases hr : run_single_cmd env e w c hdr with ⟨w1, r⟩
    have hres := run_single_cmd_result env e w c hdr
    rw [hr] at hres
    cases r with
    | ok u => simpa [run_batch, hr] using ih w1
    | error err =>
      simp only [run_batch, hr]
      rcases hres with h | h
      · exact absurd h (by simp)
      · simp only [Except.error.injEq] at h
        simp [h]

theorem runCmd_single_result (env : Env) (e : Ext) (w : World)
    (cmd : List String) (hdr : String) (hne : cmd ≠ []) :
    (runCmd env e w (Sum.inl cmd) hdr).2 = Except.ok () ∨
      (runCmd env e w (Sum.inl cmd) hdr).2 = Except.error Err.subCommand := by
  have hb : cmd.isEmpty = false := by
    cases cmd
    · exact absurd rfl hne
    · rfl
  simp only [runCmd, hb, Bool.false_eq_true, if_false]
  exact run_single_cmd_result env e w cmd hdr

theorem runCmd_batch_result (env : Env) (e : Ext) (w : World)
    (cmds : List (List String)) (hdr : String) (hne : cmds ≠ []) :
    (runCmd env e w (Sum.inr cmds) hdr).2 = Except.ok () ∨
      (runCmd env e w (Sum.inr cmds) hdr).2 = Except.error Err.subCommand := by
  have hb : cmds.isEmpty = false := by
    cases cmds
    · exact absurd rfl hne
    · rfl
  simp only [runCmd, hb, Bool.false_eq_true, if_false]
  exact run_batch_result env e hdr cmds w

/-! ### Command-builder structure lemmas -/

theorem foldl_append_map (f : String × String → String) :
    ∀ (l : PyDict) (init : List String),
      l.foldl (fun c kv => c ++ [f kv]) init = init ++ l.map f := by
  intro l
  induction l with
  | nil => intro init; simp
  | cons kv rest ih => intro init; simp [ih]

/-- The configure command, written out. -/
theorem get_configure_cmd_eq (env : Env) (e : Ext) :
    get_configure_cmd env e =
      ([cmakeBin env, "-S", e.cmake_src_dir, "-B", e.cmake_bin_dir,
          "-DCMAKE_BUILD_TYPE=Release"]
        ++ (if env.osName == "nt" then [] else ["-G", "Ninja"]))
        ++ e.cmake_extra_def.map (fun kv => "-D" ++ kv.1 ++ "=" ++ kv.2) := by
  unfold get_configure_cmd
  rw [foldl_append_map]
  by_cases h : env.osName = "nt" <;> simp [h]

theorem get_configure_cmd_ne_nil (env : Env) (e : Ext) :
    get_configure_cmd env e ≠ [] := by
  rw [get_configure_cmd_eq]
  simp

/-- Every step of the manifest loop only appends to the accumulated
command batch. -/
theorem foldl_extends {X Y : Type} (st : List X → Y → List X)
    (h : ∀ acc y, ∃ δ, st acc y = acc ++ δ) :
    ∀ (l : List Y) (acc : List X), ∃ δ, l.foldl st acc = acc ++ δ := by
  intro l
  induction l with
  | nil => intro acc; exact ⟨[], by simp⟩
  | cons y ys ih =>
    intro acc
    obtain ⟨δ1, h1⟩ := h acc y
    obtain ⟨δ2, h2⟩ := ih (st acc y)
    exact ⟨δ1 ++ δ2, by rw [List.foldl_cons, h2, h1, List.append_assoc]⟩

/-- Each manifest line only appends removal commands to the batch. -/
theorem clean_manifest_step_extends (env : Env) (e : Ext) :
    ∀ (acc : List (List String)) (line : String),
      ∃ δ, clean_manifest_step env e acc line = acc ++ δ := by
  intro acc line
  dsimp only [clean_manifest_step]
  split
  · split
    · exact ⟨[[e.rm_cmd, line], [e.rm_cmd, splitFirstDotPrefix line ++ ".pyi"]],
        by rw [List.append_assoc]; rfl⟩
    · exact ⟨[[e.rm_cmd, splitFirstDotPrefix line ++ ".pyi"]], rfl⟩
  · split
    · exact ⟨[[e.rm_cmd, line]], rfl⟩
    · exact ⟨[], by simp⟩

/-- The batch from `_get_clean_cmd` always starts with the `--target clean` invocation. -/
theorem get_clean_cmd_structure (env : Env) (e : Ext) :
    ∃ rest, get_clean_cmd env e =
      [cmakeBin env, "--build", e.cmake_bin_dir, "--target", "clean"] :: rest := by
  dsimp only [get_clean_cmd]
  split
  · exact ⟨[], rfl⟩
  · obtain ⟨δ, hδ⟩ :=
      foldl_extends (clean_manifest_step env e)
        (clean_manifest_step_extends env e)
        (pyReadlines (env.readFile (pathJoin e.cmake_bin_dir "install_manifest.txt")))
        [[cmakeBin env, "--build", e.cmake_bin_dir, "--target", "clean"]]
    exact ⟨δ, by rw [hδ]; rfl⟩

theorem get_clean_cmd_ne_nil (env : Env) (e : Ext) :
    get_clean_cmd env e ≠ [] := by
  obtain ⟨rest, h⟩ := get_clean_cmd_structure env e
  rw [h]
  simp

/-! ### Phase lemmas -/

theorem get_build_cmd_ne_nil (env : Env) (e : Ext) : get_build_cmd env e ≠ [] := by
  simp [get_build_cmd]

theorem get_post_build_cmd_ne_nil (env : Env) (e : Ext) :
    get_post_build_cmd env e ≠ [] := by
  simp [get_post_build_cmd]

theorem get_stub_gen_cmd_ne_nil (env : Env) (e : Ext) :
    get_stub_gen_cmd env e ≠ [] := by
  simp [get_stub_gen_cmd]

theorem configure_result (env : Env) (e : Ext) (w : World) :
    (configure env e w).2.2 = Except.ok () ∨
      (configure env e w).2.2 = Except.error Err.subCommand := by
  dsimp only [configure]
  exact runCmd_single_result env e w _ _ (get_configure_cmd_ne_nil env e)

theorem stubgen_result (env : Env) (e : Ext) (w : World) :
    (stubgen env e w).2.2 = Except.ok () ∨
      (stubgen env e w).2.2 = Except.error Err.subCommand := by
  dsimp only [stubgen]
  exact runCmd_single_result env e w _ _ (get_stub_gen_cmd_ne_nil env e)

theorem build_result (env : Env) (e : Ext) (w : World) :
    (build env e w).2.2 = Except.ok () ∨
      (build env e w).2.2 = Except.error Err.subCommand := by
  dsimp only [build]
  rcases hr : runCmd env e w (Sum.inl (get_build_cmd env e)) (headerFor "build")
    with ⟨w1, r⟩
  have hres := runCmd_single_result env e w (get_build_cmd env e)
    (headerFor "build") (get_build_cmd_ne_nil env e)
  rw [hr] at hres
  cases r with
  | ok u =>
    dsimp only
    rw [if_pos (show (get_post_build_cmd env e).length > 0 by
      simp [get_post_build_cmd])]
    exact runCmd_single_result env e w1 _ _ (get_post_build_cmd_ne_nil env e)
  | error err =>
    dsimp only
    dsimp only at hres
    rcases hres with h | h
    · exact absurd h (by simp)
    · exact Or.inr h

/-- The method `clean` never takes the "Nothing to clean." branch: it always hands the
computed batch to the runner. -/
theorem clean_delegates (env : Env) (e : Ext) (w : World) :
    clean env e w =
      (e, runCmd env e w (Sum.inr (get_clean_cmd env e)) (headerFor "clean")) := by
  have hlen : ((get_clean_cmd env e).length == 0) = false := by
    obtain ⟨rest, h⟩ := get_clean_cmd_structure env e
    rw [h]
    rfl
  dsimp only [clean]
  rw [hlen]
  simp

theorem clean_result (env : Env) (e : Ext) (w : World) :
    (clean env e w).2.2 = Except.ok () ∨
      (clean env e w).2.2 = Except.error Err.subCommand := by
  rw [clean_delegates]
  exact runCmd_batch_result env e w _ _ (get_clean_cmd_ne_nil env e)

theorem mainTryBody_result (env : Env) (args : Args) :
    (mainTryBody env args).2 = Except.ok () ∨
      (mainTryBody env args).2 = Except.error Err.subCommand := by
  dsimp only [mainTryBody]
  split
  · exact clean_result env (mainExt env args.dry_run) ⟨[], []⟩
  · rcases h1 : configure env (mainExt env args.dry_run) ⟨[], []⟩ with ⟨e1, w1, r1⟩
    have hres1 := configure_result env (mainExt env args.dry_run) ⟨[], []⟩
    rw [h1] at hres1
    cases r1 with
    | error err =>
      dsimp only
      dsimp only at hres1
      rcases hres1 with h | h
      · exact absurd h (by simp)
      · exact Or.inr h
    | ok u =>
      dsimp only
      rcases h2 : build env (mainExt env args.dry_run) w1 with ⟨e2, w2, r2⟩
      have hres2 := build_result env (mainExt env args.dry_run) w1
      rw [h2] at hres2
      cases r2 with
      | error err =>
        dsimp only
        dsimp only at hres2
        rcases hres2 with h | h
        · exact absurd h (by simp)
        · exact Or.inr h
      | ok u2 =>
        dsimp only
        exact stubgen_result env (mainExt env args.dry_run) w2

/-- A failing configure command: the full resulting world and error. -/
theorem configure_fail (env : Env) (e : Ext) (w : World)
    (hdry : e.dry_run = false)
    (hfail : env.exitCode (get_configure_cmd env e) ≠ 0) :
    configure env e w =
      (e,
        ⟨w.prints ++ [cmdHeaderLine (headerFor "configure") (get_configure_cmd env e)]
            ++ (env.stdoutOf (get_configure_cmd env e)).map
                (stdoutTagged (headerFor "configure"))
            ++ (env.stderrOf (get_configure_cmd env e)).map
                (stderrTagged (headerFor "configure")),
          w.spawned ++ [(get_configure_cmd env e, e.cmd_in_shell)]⟩,
        Except.error Err.subCommand) := by
  have hb : (get_configure_cmd env e).isEmpty = false := by
    rcases hcc : get_configure_cmd env e with _ | _
    · exact absurd hcc (get_configure_cmd_ne_nil env e)
    · rfl
  dsimp only [configure, runCmd]
  rw [hb]
  simp only [Bool.false_eq_true, if_false,
    run_single_cmd_wet env e w (get_configure_cmd env e) (headerFor "configure") hdry,
    if_pos hfail]

/-! ### Claim theorems -/

/-- C5: for every caller-supplied configuration-override mapping `M`, the
configuration held by the constructed extension equals `M` on every key
present in `M` (caller-supplied values always win) and equals the default
mapping on every key absent from `M`; the merge happens at construction. -/
theorem c5_defaults_merge (env : Env) (M : PyDict) (mn src : String)
    (obin : Option String) (dr : Bool) (k : String) :
    (dictContains M k = true →
      dictLookup
        (heapGet (cmakeExtensionInit env ⟨[M]⟩ mn src obin 0 dr).1
          (cmakeExtensionInit env ⟨[M]⟩ mn src obin 0 dr).2.cmake_extra_def) k =
        dictLookup M k) ∧
    (dictContains M k = false →
      dictLookup
        (heapGet (cmakeExtensionInit env ⟨[M]⟩ mn src obin 0 dr).1
          (cmakeExtensionInit env ⟨[M]⟩ mn src obin 0 dr).2.cmake_extra_def) k =
        dictLookup (CMAKE_DEFAULT_DEF env.pybind11Dir) k) := by
  have hred : heapGet (cmakeExtensionInit env ⟨[M]⟩ mn src obin 0 dr).1
      (cmakeExtensionInit env ⟨[M]⟩ mn src obin 0 dr).2.cmake_extra_def =
      (CMAKE_DEFAULT_DEF env.pybind11Dir).foldl
        (fun d kv => if dictContains d kv.1 then d else dictSet d kv.1 kv.2) M := by
    rfl
  rw [hred]
  exact mergeDefaults_lookup (CMAKE_DEFAULT_DEF env.pybind11Dir) M k

/-- Witness for C5 on a concrete override mapping: the caller's
`pybind11_DIR` survives, and the missing default key is filled in. -/
theorem c5_witness :
    dictLookup
      (heapGet
        (cmakeExtensionInit envLinux ⟨[[("pybind11_DIR", "/custom")]]⟩
          "m" "/s" none 0 false).1
        (cmakeExtensionInit envLinux ⟨[[("pybind11_DIR", "/custom")]]⟩
          "m" "/s" none 0 false).2.cmake_extra_def) "pybind11_DIR" =
      some "/custom" ∧
    dictLookup
      (heapGet
        (cmakeExtensionInit envLinux ⟨[[("pybind11_DIR", "/custom")]]⟩
          "m" "/s" none 0 false).1
        (cmakeExtensionInit envLinux ⟨[[("pybind11_DIR", "/custom")]]⟩
          "m" "/s" none 0 false).2.cmake_extra_def) "CMAKE_EXPORT_COMPILE_COMMANDS" =
      some "ON" := by
  constructor
  · exact ((c5_defaults_merge envLinux [("pybind11_DIR", "/custom")] "m" "/s"
      none false "pybind11_DIR").1 rfl).trans rfl
  · exact ((c5_defaults_merge envLinux [("pybind11_DIR", "/custom")] "m" "/s"
      none false "CMAKE_EXPORT_COMPILE_COMMANDS").2 rfl).trans rfl

/-- C6: two instances constructed without an explicit mapping share one and
the same dict object (the mutable default argument); the default entries
added while constructing the first instance are observable through the
second instance's mapping. This refutes "freshly copied at construction". -/
theorem c6_shared_default_dict :
    sharedInit1.2.cmake_extra_def = sharedInit2.2.cmake_extra_def ∧
    heapGet initModuleState defaultArgRef = [] ∧
    dictLookup (heapGet sharedInit1.1 sharedInit1.2.cmake_extra_def)
      "CMAKE_EXPORT_COMPILE_COMMANDS" = some "ON" ∧
    dictLookup (heapGet sharedInit2.1 sharedInit2.2.cmake_extra_def)
      "CMAKE_EXPORT_COMPILE_COMMANDS" = some "ON" :=
  ⟨rfl, rfl, rfl, rfl⟩

/-- C7: the configure command is the configure tool with source dir, output
dir, `Release` build type, the Ninja generator flags exactly on non-Windows
hosts, then one `-D<k>=<v>` per override in iteration order; and the
removal utility chosen at construction is `del` on Windows, `rm`
elsewhere. -/
theorem c7_configure_cmd_shape : ∀ (env : Env) (e : Ext),
    get_configure_cmd env e =
      ([cmakeBin env, "-S", e.cmake_src_dir, "-B", e.cmake_bin_dir,
          "-DCMAKE_BUILD_TYPE=Release"]
        ++ (if env.osName == "nt" then [] else ["-G", "Ninja"]))
        ++ e.cmake_extra_def.map (fun kv => "-D" ++ kv.1 ++ "=" ++ kv.2) ∧
    ∀ (st : PyState) (mn src : String) (obin : Option String) (r : Nat) (dr : Bool),
      (cmakeExtensionInit env st mn src obin r dr).2.rm_cmd =
        (if env.osName == "nt" then "del" else "rm") := by
  intro env e
  refine ⟨get_configure_cmd_eq env e, ?_⟩
  intro st mn src obin r dr
  cases obin <;> rfl

/-- C8: with the dry-run flag set, the Command Runner prints exactly the
phase-tagged full command line, launches no subprocess (the spawn trace is
unchanged, hence also no filesystem mutation), and returns success. -/
theorem c8_dry_run_no_spawn (env : Env) (e : Ext) (w : World)
    (cmd : List String) (hdr : String) (h : e.dry_run = true) :
    run_single_cmd env e w cmd hdr =
      (⟨w.prints ++ [cmdHeaderLine hdr cmd], w.spawned⟩, Except.ok ()) :=
  run_single_cmd_dry env e w cmd hdr h

/-- Witness for C8 at a concrete dry-run instance and command. -/
theorem c8_witness :
    extDry.dry_run = true ∧
    run_single_cmd envLinux extDry ⟨[], []⟩ ["x"] "[CMAKE]" =
      (⟨[cmdHeaderLine "[CMAKE]" ["x"]], []⟩, Except.ok ()) :=
  ⟨rfl, c8_dry_run_no_spawn envLinux extDry ⟨[], []⟩ ["x"] "[CMAKE]" rfl⟩

/-- C9 (evidence of the sequential-drain bug): outside dry-run the runner
prints the entire stdout stream and only then the entire stderr stream —
the streams are drained one after the other to completion, not concurrently
as they arrive. -/
theorem c9_sequential_stream_drain (env : Env) (e : Ext) (w : World)
    (cmd : List String) (hdr : String) (h : e.dry_run = false) :
    (run_single_cmd env e w cmd hdr).1.prints =
      w.prints ++ [cmdHeaderLine hdr cmd]
        ++ (env.stdoutOf cmd).map (stdoutTagged hdr)
        ++ (env.stderrOf cmd).map (stderrTagged hdr) := by
  rw [run_single_cmd_wet env e w cmd hdr h]

/-- Witness for C9: a command with one stdout line and two stderr lines;
the stderr lines appear strictly after all stdout lines. -/
theorem c9_witness :
    ext0.dry_run = false ∧
    (run_single_cmd envStreams ext0 ⟨[], []⟩ ["tool"] "[BUILD]").1.prints =
      [] ++ [cmdHeaderLine "[BUILD]" ["tool"]]
        ++ ([" hello \n"].map (stdoutTagged "[BUILD]"))
        ++ (["oops\n", "bad\n"].map (stderrTagged "[BUILD]")) :=
  ⟨rfl, c9_sequential_stream_drain envStreams ext0 ⟨[], []⟩ ["tool"] "[BUILD]" rfl⟩

/-- C10: every public phase operation returns the instance configuration
unchanged — whether it succeeds or raises `SubCommandError`, none of the
fields set at construction is modified. -/
theorem c10_phase_frame : ∀ (env : Env) (e : Ext) (w : World),
    (configure env e w).1 = e ∧ (build env e w).1 = e ∧
    (clean env e w).1 = e ∧ (stubgen env e w).1 = e := by
  intro env e w
  refine ⟨rfl, ?_, ?_, rfl⟩
  · dsimp only [build]
    rcases hr : runCmd env e w (Sum.inl (get_build_cmd env e)) (headerFor "build")
      with ⟨w1, r⟩
    cases r with
    | ok u =>
      dsimp only
      split <;> rfl
    | error err => rfl
  · rw [clean_delegates]

/-- C1 (counterexample): on a target whose output directory and install
manifest both do not exist, the computed cleanup sequence is nevertheless
non-empty, `clean()` launches one subprocess (the cmake clean target), and
"Nothing to clean." is not printed. -/
theorem c1_counterexample :
    envLinux.fsExists ext0.cmake_bin_dir = false ∧
    envLinux.fsExists (pathJoin ext0.cmake_bin_dir "install_manifest.txt") = false ∧
    get_clean_cmd envLinux ext0 ≠ [] ∧
    (clean envLinux ext0 ⟨[], []⟩).2.1.spawned =
      [(["/opt/cmake/bin/cmake", "--build", "/proj/csrcs/cmake-build-release",
          "--target", "clean"], false)] ∧
    nothingToCleanLine ∉ (clean envLinux ext0 ⟨[], []⟩).2.1.prints := by
  refine ⟨rfl, rfl, by decide, rfl, by decide⟩

/-- C1 (amended): the cleanup computation always returns a non-empty
sequence whose first action is the build tool's `clean` target against the
output directory — whether or not the directory or manifest exists — and
`clean()` always hands the batch to the Command Runner ("nothing to clean"
is unreachable), launching at least one subprocess when not in dry-run. -/
theorem c1_clean_always_invokes_runner : ∀ (env : Env) (e : Ext) (w : World),
    get_clean_cmd env e ≠ [] ∧
    (get_clean_cmd env e).head? =
      some [cmakeBin env, "--build", e.cmake_bin_dir, "--target", "clean"] ∧
    clean env e w =
      (e, runCmd env e w (Sum.inr (get_clean_cmd env e)) (headerFor "clean")) ∧
    (e.dry_run = false →
      (clean env e w).2.1.spawned.length ≥ w.spawned.length + 1) := by
  intro env e w
  obtain ⟨rest, hstruct⟩ := get_clean_cmd_structure env e
  refine ⟨get_clean_cmd_ne_nil env e, by rw [hstruct]; rfl,
    clean_delegates env e w, ?_⟩
  intro hdry
  rw [clean_delegates env e w]
  dsimp only
  rw [hstruct]
  dsimp only [runCmd, List.isEmpty]
  dsimp only [run_batch]
  rcases hr : run_single_cmd env e w
    [cmakeBin env, "--build", e.cmake_bin_dir, "--target", "clean"]
    (headerFor "clean") with ⟨w1, r⟩
  have hsp : w1.spawned =
      w.spawned ++ [([cmakeBin env, "--build", e.cmake_bin_dir, "--target",
        "clean"], e.cmd_in_shell)] := by
    have h := run_single_cmd_spawned env e w
      [cmakeBin env, "--build", e.cmake_bin_dir, "--target", "clean"]
      (headerFor "clean")
    rw [hr, hdry] at h
    simpa using h
  cases r with
  | ok u =>
    simp only [Bool.false_eq_true, if_false]
    obtain ⟨δ, hδ⟩ := run_batch_spawned_extends env e (headerFor "clean") rest w1
    rw [hδ, hsp]
    simp [List.length_append]
  | error err =>
    simp only [Bool.false_eq_true, if_false]
    rw [hsp]
    simp

/-- Witness for C1's amended theorem: the empty-filesystem target launches
at least one subprocess from `clean`. -/
theorem c1_witness :
    ext0.dry_run = false ∧
    (clean envLinux ext0 ⟨[], []⟩).2.1.spawned.length ≥
      (⟨[], []⟩ : World).spawned.length + 1 :=
  ⟨rfl, (c1_clean_always_invokes_runner envLinux ext0 ⟨[], []⟩).2.2.2 rfl⟩

/-- C2 (counterexample): with the manifest listing
`/out/mylib.cpython-310.so`, which exists, while `/out/mylib.pyi` does not
exist, no removal action targets `/out/mylib.pyi`. -/
theorem c2_counterexample :
    envManifest.fsExists "/out/mylib.cpython-310.so" = true ∧
    envManifest.fsExists "/out/mylib.pyi" = false ∧
    [ext0.rm_cmd, "/out/mylib.pyi"] ∉ get_clean_cmd envManifest ext0 := by
  refine ⟨rfl, rfl, by decide⟩

/-- C2 (amended): for a manifest whose single line is
`/out/mylib.cpython-310.so`, the resolver derives `/out/mylib.pyi` by the
first-dot suffix replacement and emits a removal action for each of the two
paths exactly when that path itself exists on the filesystem (so the stub
is targeted only if it exists). -/
theorem c2_manifest_pyi_rule (env : Env) (e : Ext)
    (hm : env.fsExists (pathJoin e.cmake_bin_dir "install_manifest.txt") = true)
    (hrd : env.readFile (pathJoin e.cmake_bin_dir "install_manifest.txt") =
      "/out/mylib.cpython-310.so") :
    get_clean_cmd env e =
      [[cmakeBin env, "--build", e.cmake_bin_dir, "--target", "clean"]]
        ++ (if env.fsExists "/out/mylib.cpython-310.so" then
              [[e.rm_cmd, "/out/mylib.cpython-310.so"]] else [])
        ++ (if env.fsExists "/out/mylib.pyi" then
              [[e.rm_cmd, "/out/mylib.pyi"]] else []) := by
  dsimp only [get_clean_cmd]
  rw [hm, hrd]
  simp only [Bool.not_true, Bool.false_eq_true, if_false]
  have hrl : pyReadlines "/out/mylib.cpython-310.so" =
      ["/out/mylib.cpython-310.so"] := by decide
  rw [hrl]
  dsimp only [List.foldl, clean_manifest_step]
  have hsp : splitFirstDotPrefix "/out/mylib.cpython-310.so" ++ ".pyi" =
      "/out/mylib.pyi" := by decide
  rw [hsp]
  by_cases h1 : env.fsExists "/out/mylib.cpython-310.so" = true <;>
    by_cases h2 : env.fsExists "/out/mylib.pyi" = true <;>
    simp [h1, h2]

/-- Witness for C2's amended theorem on the concrete manifest host. -/
theorem c2_witness :
    get_clean_cmd envManifest ext0 =
      [[cmakeBin envManifest, "--build", ext0.cmake_bin_dir, "--target", "clean"]]
        ++ (if envManifest.fsExists "/out/mylib.cpython-310.so" then
              [[ext0.rm_cmd, "/out/mylib.cpython-310.so"]] else [])
        ++ (if envManifest.fsExists "/out/mylib.pyi" then
              [[ext0.rm_cmd, "/out/mylib.pyi"]] else []) :=
  c2_manifest_pyi_rule envManifest ext0 rfl rfl

/-- C3 (counterexample): a run whose configure command exits 1 ends with a
`SubCommandError` outcome inside `main`'s try block, yet the process exit
code is 0 — the failure is swallowed by `except SubCommandError: pass`. -/
theorem c3_counterexample :
    (mainTryBody envFail ⟨false, false⟩).2 = Except.error Err.subCommand ∧
    mainExitCode envFail ⟨false, false⟩ = 0 := by
  constructor <;> rfl

/-- C3 (amended): `SubCommandError` never propagates uncaught — `main`
catches it and stops the remaining phases — so the CLI process exits with
code 0 on every run, failed or not. -/
theorem c3_exit_code_zero : ∀ (env : Env) (args : Args),
    mainExitCode env args = 0 := by
  intro env args
  rcases mainTryBody_result env args with h | h <;> simp [mainExitCode, h]

/-- C4: in default (non-clean, non-dry-run) mode, if the configure command
exits non-zero, the whole run spawns exactly that one configure subprocess —
the build and stub-generation phases never run, and the failure is an
exception (`SubCommandError`), not a retry. -/
theorem c4_configure_failure_blocks_later_phases (env : Env) (args : Args)
    (hclean : args.clean = false) (hdry : args.dry_run = false)
    (hfail : env.exitCode (get_configure_cmd env (mainExt env false)) ≠ 0) :
    (mainTryBody env args).1.spawned =
      [(get_configure_cmd env (mainExt env false),
        (mainExt env false).cmd_in_shell)] ∧
    (mainTryBody env args).2 = Except.error Err.subCommand := by
  have hdryext : (mainExt env false).dry_run = false := rfl
  dsimp only [mainTryBody]
  rw [hclean, hdry]
  simp only [Bool.false_eq_true, if_false]
  rw [configure_fail env (mainExt env false) ⟨[], []⟩ hdryext hfail]
  exact ⟨rfl, rfl⟩

/-- Witness for C4: with every command exiting 1, the run spawns only the
configure invocation and ends in `SubCommandError`. -/
theorem c4_witness :
    (mainTryBody envFail ⟨false, false⟩).1.spawned =
      [(get_configure_cmd envFail (mainExt envFail false),
        (mainExt envFail false).cmd_in_shell)] ∧
    (mainTryBody envFail ⟨false, false⟩).2 = Except.error Err.subCommand :=
  c4_configure_failure_blocks_later_phases envFail ⟨false, false⟩ rfl rfl
    (by decide)

end ExtBuild
